import Mathlib

/-!
Shallow embedding of the like-button particle system:
the particle configuration resolver (`presets.ts`, `utils.ts`) and the
click/particle state machine (`useLikeButton.ts`).

Modelling conventions:
* JS numbers are embedded as `ℚ` (the code performs only field arithmetic).
* `Partial<ParticleConfig>` objects are embedded with fields of type
  `Option (Option α)`: the outer `Option` records whether the key is present
  on the object, the inner one whether its value is `undefined`.  This is
  needed to model JS object-spread (`{...base, ...override}`) faithfully:
  a key that is present with value `undefined` *does* overwrite the base.
* The particle instance id string `` `${Date.now()}-${i}` `` is embedded as
  the pair `⟨timestamp, i⟩`; the decimal formatting of two naturals around a
  dash is injective, so id equality coincides in both models.
* Random draws (`Math.random()` results) are passed explicitly; one
  `Draws` record carries the four draws consumed per synthesized particle.
* React `useState` setters are embedded by explicit state passing; callback
  invocations (`onClick?.(...)`, `onRightClick?.(...)`) and
  `e.preventDefault()` are returned as data.
-/

/- ============ Particle shapes and ranges (Particle/types.ts) ============ -/

/-- `ParticleShape = ParticleShapePreset | CustomParticleShape`; a custom
shape (a render function) is identified by an opaque token. -/
inductive ParticleShape where
  | heart
  | star
  | circle
  | square
  | sparkle
  | custom (token : ℕ)
deriving DecidableEq, Repr

/-- `Range` from `Particle/types.ts`: `{ min: number; max: number }`. -/
structure Range where
  min : ℚ
  max : ℚ
deriving DecidableEq, Repr

/-- A `number | Range` value (the type of `size` and `distance`). -/
inductive NumOrRange where
  | num (v : ℚ)
  | range (r : Range)
deriving DecidableEq, Repr

/-- `ParticlePreset = "burst" | "fountain" | "confetti" | "gentle" | "fireworks"`. -/
inductive ParticlePreset where
  | burst
  | fountain
  | confetti
  | gentle
  | fireworks
deriving DecidableEq, Repr

/-- A fully-populated particle configuration:
`ParticlePresetConfig` / `Required<ParticleConfig>`. -/
structure ParticlePresetConfig where
  shape : ParticleShape
  colors : List String
  count : ℕ
  size : NumOrRange
  speed : ℚ
  distance : NumOrRange
  spread : ℚ
  spreadOffset : ℚ
  easing : String
  fadeOut : Bool
deriving DecidableEq, Repr

/-- The runtime content of a `Partial<ParticleConfig>` object.  Each field is
`Option (Option α)`: `none` = key absent, `some none` = key present with
value `undefined`, `some (some v)` = key present with value `v`. -/
structure ParticleConfig where
  shape : Option (Option ParticleShape) := none
  colors : Option (Option (List String)) := none
  count : Option (Option ℕ) := none
  size : Option (Option NumOrRange) := none
  speed : Option (Option ℚ) := none
  distance : Option (Option NumOrRange) := none
  spread : Option (Option ℚ) := none
  spreadOffset : Option (Option ℚ) := none
  easing : Option (Option String) := none
  fadeOut : Option (Option Bool) := none
deriving DecidableEq, Repr

/-- View a fully-populated config as a JS object value (every key present
with a defined value), as happens when it is object-spread into a partial. -/
def ParticlePresetConfig.toPartial (c : ParticlePresetConfig) : ParticleConfig where
  shape := some (some c.shape)
  colors := some (some c.colors)
  count := some (some c.count)
  size := some (some c.size)
  speed := some (some c.speed)
  distance := some (some c.distance)
  spread := some (some c.spread)
  spreadOffset := some (some c.spreadOffset)
  easing := some (some c.easing)
  fadeOut := some (some c.fadeOut)

/- ====================== presets.ts ====================== -/

/-- `DEFAULT_PARTICLE_CONFIG` from `presets.ts`. -/
def DEFAULT_PARTICLE_CONFIG : ParticlePresetConfig where
  shape := .heart
  speed := 500
  distance := .range ⟨60, 100⟩
  spread := 360
  spreadOffset := 0
  size := .range ⟨1.0, 1.5⟩
  colors := ["#EF4444", "#B9FF14", "#3B82F6"]
  count := 8
  easing := "cubic-bezier(0.22, 1, 0.36, 1)"
  fadeOut := true

/-- `PARTICLE_PRESETS` from `presets.ts`, as a total map from preset names. -/
def PARTICLE_PRESETS : ParticlePreset → ParticlePresetConfig
  | .burst =>
    { shape := .heart
      speed := 400
      distance := .range ⟨80, 120⟩
      spread := 360
      spreadOffset := 0
      size := .range ⟨1.0, 1.5⟩
      colors := ["#EF4444", "#F59E0B", "#3B82F6"]
      count := 12
      easing := "cubic-bezier(0.22, 1, 0.36, 1)"
      fadeOut := true }
  | .fountain =>
    { shape := .circle
      speed := 600
      distance := .range ⟨60, 100⟩
      spread := 120
      spreadOffset := -90
      size := .range ⟨0.8, 1.2⟩
      colors := ["#3B82F6", "#8B5CF6", "#EC4899"]
      count := 10
      easing := "cubic-bezier(0.22, 1, 0.36, 1)"
      fadeOut := true }
  | .confetti =>
    { shape := .square
      speed := 800
      distance := .range ⟨70, 110⟩
      spread := 360
      spreadOffset := 0
      size := .range ⟨0.6, 1.4⟩
      colors := ["#EF4444", "#F59E0B", "#10B981", "#3B82F6", "#8B5CF6", "#EC4899"]
      count := 15
      easing := "ease-out"
      fadeOut := true }
  | .gentle =>
    { shape := .heart
      speed := 700
      distance := .range ⟨40, 60⟩
      spread := 180
      spreadOffset := -90
      size := .range ⟨0.8, 1.0⟩
      colors := ["#EF4444", "#F87171"]
      count := 6
      easing := "ease-in-out"
      fadeOut := true }
  | .fireworks =>
    { shape := .sparkle
      speed := 500
      distance := .range ⟨100, 150⟩
      spread := 360
      spreadOffset := 0
      size := .range ⟨1.2, 2.0⟩
      colors := ["#FBBF24", "#F59E0B", "#EF4444", "#EC4899"]
      count := 16
      easing := "cubic-bezier(0.22, 1, 0.36, 1)"
      fadeOut := true }

/-- `getParticlePreset(preset)` from `presets.ts`. -/
def getParticlePreset (preset : ParticlePreset) : ParticlePresetConfig :=
  PARTICLE_PRESETS preset

/- ====================== Particle/utils.ts ====================== -/

/-- One key of `{ ...base, ...override }`: a key present on the override
(defined or `undefined`) overwrites the base; an absent key keeps the base. -/
def overrideField {α : Type} (b o : Option (Option α)) : Option (Option α) :=
  match o with
  | none => b
  | some v => some v

/-- `mergeParticleConfig(base, override?)` from `Particle/utils.ts`:
returns `base` when `override` is not given, otherwise `{...base, ...override}`. -/
def mergeParticleConfig (base : ParticleConfig) (override : Option ParticleConfig) :
    ParticleConfig :=
  match override with
  | none => base
  | some o =>
    { shape := overrideField base.shape o.shape
      colors := overrideField base.colors o.colors
      count := overrideField base.count o.count
      size := overrideField base.size o.size
      speed := overrideField base.speed o.speed
      distance := overrideField base.distance o.distance
      spread := overrideField base.spread o.spread
      spreadOffset := overrideField base.spreadOffset o.spreadOffset
      easing := overrideField base.easing o.easing
      fadeOut := overrideField base.fadeOut o.fadeOut }

/-- `resolveParticleConfig(preset, config)` from `Particle/utils.ts`:
defaults, then the preset (if given), then the custom config (if given). -/
def resolveParticleConfig (preset : Option ParticlePreset)
    (config : Option ParticleConfig) : ParticleConfig :=
  let resolved : ParticleConfig := DEFAULT_PARTICLE_CONFIG.toPartial
  let resolved : ParticleConfig :=
    match preset with
    | some p => mergeParticleConfig resolved (some (getParticlePreset p).toPartial)
    | none => resolved
  match config with
  | some c => mergeParticleConfig resolved (some c)
  | none => resolved

/-- Models the `resolved as Required<ParticleConfig>` cast: it succeeds (is
meaningful at runtime) exactly when every field is present and defined. -/
def stripConfig (c : ParticleConfig) : Option ParticlePresetConfig := do
  let shape ← (c.shape.getD none)
  let colors ← (c.colors.getD none)
  let count ← (c.count.getD none)
  let size ← (c.size.getD none)
  let speed ← (c.speed.getD none)
  let distance ← (c.distance.getD none)
  let spread ← (c.spread.getD none)
  let spreadOffset ← (c.spreadOffset.getD none)
  let easing ← (c.easing.getD none)
  let fadeOut ← (c.fadeOut.getD none)
  pure
    { shape := shape, colors := colors, count := count, size := size
      speed := speed, distance := distance, spread := spread
      spreadOffset := spreadOffset, easing := easing, fadeOut := fadeOut }

/-- `normalizeRange(value)` from `Particle/utils.ts`. -/
def normalizeRange (value : NumOrRange) : Range :=
  match value with
  | .num v => ⟨v, v⟩
  | .range r => r

/-- `randomInRange(range)` from `Particle/utils.ts`; `u` is the
`Math.random()` draw. -/
def randomInRange (range : Range) (u : ℚ) : ℚ :=
  range.min + u * (range.max - range.min)

/-- JS truncating division used by the `%` operator: `trunc(q)` rounds toward
zero. -/
def jsTrunc (q : ℚ) : ℤ :=
  if q < 0 then -⌊-q⌋ else ⌊q⌋

/-- The JS remainder operator `a % b` (sign of the dividend). -/
def jsMod (a b : ℚ) : ℚ :=
  a - b * (jsTrunc (a / b) : ℚ)

/-- `normalizeAngle(angle)` from `Particle/utils.ts`: `angle % 360`, shifted
by `+360` when negative, with the `-0` fix (`result === 0 ? 0 : result`). -/
def normalizeAngle (angle : ℚ) : ℚ :=
  let normalized := jsMod angle 360
  let result := if normalized < 0 then normalized + 360 else normalized
  if result = 0 then 0 else result

/-- `randomAngle(spread, offset)` from `Particle/utils.ts`; `u` is the
`Math.random()` draw. -/
def randomAngle (spread offset : ℚ) (u : ℚ) : ℚ :=
  normalizeAngle (offset + u * spread)

/- ====================== LikeButton/utils.ts ====================== -/

/-- `PARTICLE_CLEANUP_BUFFER_MS` from `LikeButton/utils.ts`. -/
def PARTICLE_CLEANUP_BUFFER_MS : ℚ := 100

/- ====================== LikeButton/useLikeButton.ts ====================== -/

/-- `LIKE_BUTTON_DEFAULTS` from `useLikeButton.ts`. -/
structure LikeButtonDefaults where
  maxClicks : ℕ
  size : ℚ
  fillColor : String
  waveColor : String

def LIKE_BUTTON_DEFAULTS : LikeButtonDefaults where
  maxClicks := 1
  size := 96
  fillColor := "#EF4444"
  waveColor := "#B91C1C"

/-- Embeds the particle instance id string `` `${Date.now()}-${i}` `` as the
pair of the `Date.now()` timestamp and the in-burst index. -/
structure ParticleId where
  t : ℕ
  i : ℕ
deriving DecidableEq, Repr

/-- `ParticleData` from `useLikeButton.ts`.  `color` is an `Option` because
JS array indexing (`config.colors[...]`) yields `undefined` out of range. -/
structure ParticleData where
  id : ParticleId
  angle : ℚ
  distance : ℚ
  scale : ℚ
  color : Option String
  shape : ParticleShape
  speed : ℚ
  easing : String
  fadeOut : Bool
deriving DecidableEq, Repr

/-- The four `Math.random()` draws consumed for one synthesized particle, in
source order: angle, distance, scale, color index. -/
structure Draws where
  uAngle : ℚ
  uDistance : ℚ
  uScale : ℚ
  uColor : ℚ
deriving DecidableEq, Repr

/-- The mutable hook state: the two `useState` cells
(`internalClicks`, `particles`). -/
structure HookState where
  internalClicks : ℕ
  particles : List ParticleData
deriving DecidableEq, Repr

/-- `UseLikeButtonOptions` (the fields the state logic reads).  `none` on an
optional field means the caller omitted it. -/
structure UseLikeButtonOptions where
  clicks : Option ℕ := none
  maxClicks : Option ℕ := none
  disabled : Option Bool := none
  showParticles : Option Bool := none
  particlePreset : Option ParticlePreset := none
  particleConfig : Option ParticleConfig := none
deriving Repr

/-- `maxClicks = LIKE_BUTTON_DEFAULTS.maxClicks` default in the destructuring. -/
def maxClicks (o : UseLikeButtonOptions) : ℕ :=
  o.maxClicks.getD LIKE_BUTTON_DEFAULTS.maxClicks

/-- `const clicks = externalClicks ?? internalClicks`. -/
def clicks (o : UseLikeButtonOptions) (s : HookState) : ℕ :=
  o.clicks.getD s.internalClicks

/-- `const isMaxed = clicks >= maxClicks`. -/
def isMaxed (o : UseLikeButtonOptions) (s : HookState) : Bool :=
  decide (maxClicks o ≤ clicks o s)

/-- `const disabled = externalDisabled ?? isMaxed` (nullish coalescing: an
explicitly supplied `false` wins over `isMaxed`). -/
def disabled (o : UseLikeButtonOptions) (s : HookState) : Bool :=
  o.disabled.getD (isMaxed o s)

/-- `showParticles = true` default in the destructuring. -/
def showParticles (o : UseLikeButtonOptions) : Bool :=
  o.showParticles.getD true

/-- `const fillPercentage = (clicks / maxClicks) * 100` (no clamping). -/
def fillPercentage (o : UseLikeButtonOptions) (s : HookState) : ℚ :=
  ((clicks o s : ℚ) / (maxClicks o : ℚ)) * 100

/-- One element of the `Array.from({length: config.count}).map(...)` body in
`spawnParticles`, for index `i`, timestamp `t` and draws `d`. -/
def mkParticle (config : ParticlePresetConfig) (t : ℕ) (d : Draws) (i : ℕ) :
    ParticleData :=
  let distanceRange := normalizeRange config.distance
  let sizeRange := normalizeRange config.size
  { id := ⟨t, i⟩
    angle := randomAngle config.spread config.spreadOffset d.uAngle
    distance := randomInRange distanceRange d.uDistance
    scale := randomInRange sizeRange d.uScale
    color := config.colors.get? (Int.toNat ⌊d.uColor * (config.colors.length : ℚ)⌋)
    shape := config.shape
    speed := config.speed
    easing := config.easing
    fadeOut := config.fadeOut }

/-- The `newParticles` array of `spawnParticles`. -/
def newParticles (config : ParticlePresetConfig) (t : ℕ) (draws : ℕ → Draws) :
    List ParticleData :=
  (List.range config.count).map (fun i => mkParticle config t (draws i) i)

/-- The deferred removal scheduled by `spawnParticles`: fire after `delay` ms
and remove the particles whose ids are in `ids`. -/
structure CleanupSpec where
  delay : ℚ
  ids : List ParticleId
deriving DecidableEq, Repr

/-- The `setTimeout` callback body:
`setParticles(prev => prev.filter(p => !idsToRemove.has(p.id)))`. -/
def runCleanup (ids : List ParticleId) (particles : List ParticleData) :
    List ParticleData :=
  particles.filter (fun p => decide (p.id ∉ ids))

/-- `spawnParticles` from `useLikeButton.ts`: appends the synthesized burst
to the active set and returns the scheduled cleanup.  The `none` branch of
the cast corresponds to a runtime-`undefined` field slipping through the
`as Required<ParticleConfig>` cast; it is unreachable unless the caller put
an explicitly-`undefined` field in `particleConfig`. -/
def spawnParticles (o : UseLikeButtonOptions) (t : ℕ) (draws : ℕ → Draws)
    (s : HookState) : HookState × Option CleanupSpec :=
  if showParticles o = false then (s, none)
  else
    match stripConfig (resolveParticleConfig o.particlePreset o.particleConfig) with
    | none => (s, none)
    | some config =>
      let ps := newParticles config t draws
      ({ s with particles := s.particles ++ ps },
        some ⟨config.speed + PARTICLE_CLEANUP_BUFFER_MS, ps.map (·.id)⟩)

/-- `handleClick` from `useLikeButton.ts`.  Returns the new state, the
scheduled cleanup (if a burst was spawned) and the argument of the
`onClick?.(newClicks, e)` invocation (`none` = the callback is not invoked). -/
def handleClick (o : UseLikeButtonOptions) (t : ℕ) (draws : ℕ → Draws)
    (s : HookState) : HookState × Option CleanupSpec × Option ℕ :=
  if disabled o s then (s, none, none)
  else
    let newClicks := clicks o s + 1
    let s1 := if o.clicks.isNone then { s with internalClicks := newClicks } else s
    let res := spawnParticles o t draws s1
    (res.1, res.2, some newClicks)

/-- The observable outcome of a right-click / keydown handler call: the hook
state afterwards, the argument of the `onRightClick?.(clicks, e)` invocation
(`none` = not invoked), and whether `e.preventDefault()` was called. -/
structure RightClickResult where
  state : HookState
  onRightClickCall : Option ℕ
  preventedDefault : Bool
deriving DecidableEq, Repr

/-- `handleRightClick` from `useLikeButton.ts`: always prevents the default
context menu, and invokes the callback with the current count unless disabled. -/
def handleRightClick (o : UseLikeButtonOptions) (s : HookState) :
    RightClickResult where
  state := s
  onRightClickCall := if disabled o s then none else some (clicks o s)
  preventedDefault := true

/-- The fields of a React keyboard event that `handleKeyDown` reads. -/
structure KeyboardEvent where
  shiftKey : Bool
  key : String
deriving DecidableEq, Repr

/-- `handleKeyDown` from `useLikeButton.ts`: acts only when
`e.shiftKey && e.key === "Enter"`. -/
def handleKeyDown (o : UseLikeButtonOptions) (s : HookState)
    (e : KeyboardEvent) : RightClickResult :=
  if e.shiftKey = true ∧ e.key = "Enter" then
    { state := s
      onRightClickCall := if disabled o s then none else some (clicks o s)
      preventedDefault := true }
  else
    { state := s, onRightClickCall := none, preventedDefault := false }

/- ============ Property vocabulary and concrete scenario inputs ============ -/

/-- Membership of an angle `θ` in the wrapped interval from `a` (inclusive)
to `b` (exclusive) on the circle of angles `[0, 360)`: when `a < b` the
interval is the usual one; otherwise it wraps through `0` (and `a = b`,
which arises for spreads `0` and `360`, is read as the full circle in the
non-degenerate spread case). -/
def angleWithin (a b θ : ℚ) : Prop :=
  if a < b then a ≤ θ ∧ θ < b else (a ≤ θ ∨ θ < b)

/-- A deterministic stand-in for the stream of `Math.random()` draws: every
draw is `0`. -/
def d0 : ℕ → Draws := fun _ => ⟨0, 0, 0, 0⟩

/-- A fully-explicit custom particle config with one particle per burst and
integer-valued fields (used for concrete runs). -/
def tinyParticleConfig : ParticleConfig where
  shape := some (some .heart)
  colors := some (some ["#EF4444"])
  count := some (some 1)
  size := some (some (.num 1))
  speed := some (some 500)
  distance := some (some (.num 60))
  spread := some (some 360)
  spreadOffset := some (some 0)
  easing := some (some "linear")
  fadeOut := some (some true)

/-- An override whose `count` key is present but explicitly `undefined`
(`{ count: undefined }` — a valid `Partial<ParticleConfig>` value). -/
def undefCountOverride : ParticleConfig where
  count := some none

/-- The override `{ count: 5 }`. -/
def countFiveOverride : ParticleConfig where
  count := some (some 5)

/-- Options of a button on which two rapid clicks both qualify. -/
def rapidOptions : UseLikeButtonOptions where
  maxClicks := some 10
  particleConfig := some tinyParticleConfig

/-- State after one click at `Date.now() = 1000`, starting from the fresh
hook state. -/
def rapidState1 : HookState :=
  (handleClick rapidOptions 1000 d0 ⟨0, []⟩).1

/-- The cleanup scheduled by that first click. -/
def rapidCleanup1 : Option CleanupSpec :=
  (handleClick rapidOptions 1000 d0 ⟨0, []⟩).2.1

/-- State after a second click within the same millisecond
(`Date.now()` still `1000`). -/
def rapidState2 : HookState :=
  (handleClick rapidOptions 1000 d0 rapidState1).1

/-- Options with the external disabled flag explicitly `false` and particles
turned off; used with a maxed-out state. -/
def explicitEnabledOptions : UseLikeButtonOptions where
  disabled := some false
  showParticles := some false

/-- A state with one stored click (maxed for the default `maxClicks = 1`). -/
def oneClickState : HookState where
  internalClicks := 1
  particles := []

/-- Options of a controlled button whose external click count `2` exceeds
`maxClicks = 1`. -/
def overMaxOptions : UseLikeButtonOptions where
  clicks := some 2
  maxClicks := some 1

/-- The fresh hook state. -/
def freshState : HookState where
  internalClicks := 0
  particles := []

/- ====================== Helper lemmas ====================== -/

/-- `normalizeAngle` computes the mathematical residue
`360 * fract (x / 360)` of `x` modulo `360`. -/
lemma normalizeAngle_eq_fract (x : ℚ) :
    normalizeAngle x = 360 * Int.fract (x / 360) := by
  unfold normalizeAngle jsMod jsTrunc
  set q := x / 360 with hq
  have hx : x = 360 * q := by
    rw [hq]
    field_simp
  by_cases hneg : q < 0
  · simp only [if_pos hneg]
    push_cast
    have hfloor : (⌊-q⌋ : ℚ) = -q - Int.fract (-q) := by
      have := Int.floor_add_fract (-q)
      linarith
    by_cases hf : Int.fract q = 0
    · have hfz : Int.fract (-q) = 0 := Int.fract_neg_eq_zero.mpr hf
      have hm : x - 360 * -(↑⌊-q⌋ : ℚ) = 0 := by
        rw [hfloor, hfz, hx]; ring
      rw [hm]
      simp [hf]
    · have hfn : Int.fract (-q) = 1 - Int.fract q := Int.fract_neg hf
      have hf1 : Int.fract q < 1 := Int.fract_lt_one q
      have hf0 : 0 ≤ Int.fract q := Int.fract_nonneg q
      have hm : x - 360 * -(↑⌊-q⌋ : ℚ) = 360 * Int.fract q - 360 := by
        rw [hfloor, hfn, hx]; ring
      rw [hm]
      have hlt : 360 * Int.fract q - 360 < 0 := by
        have h0 : Int.fract q ≠ 0 := hf
        have : 0 < 1 - Int.fract q := by
          cases (lt_or_eq_of_le hf0) with
          | inl h => linarith
          | inr h => exact absurd h.symm hf
        linarith
      rw [if_pos hlt]
      have : 360 * Int.fract q - 360 + 360 = 360 * Int.fract q := by ring
      rw [this]
      by_cases h0 : 360 * Int.fract q = 0
      · simp [h0]
      · rw [if_neg h0]
  · simp only [if_neg hneg]
    have hfloor : (⌊q⌋ : ℚ) = q - Int.fract q := by
      have := Int.floor_add_fract q
      linarith
    have hm : x - 360 * (↑⌊q⌋ : ℚ) = 360 * Int.fract q := by
      rw [hfloor, hx]; ring
    rw [hm]
    have hge : ¬ 360 * Int.fract q < 0 := by
      have := Int.fract_nonneg q
      linarith
    rw [if_neg hge]
    by_cases h0 : 360 * Int.fract q = 0
    · simp [h0]
    · rw [if_neg h0]

/-- `normalizeAngle` always lands in `[0, 360)`. -/
lemma normalizeAngle_mem (x : ℚ) :
    0 ≤ normalizeAngle x ∧ normalizeAngle x < 360 := by
  rw [normalizeAngle_eq_fract]
  have h0 := Int.fract_nonneg (x / 360)
  have h1 := Int.fract_lt_one (x / 360)
  constructor <;> linarith

/-- Shifting the argument of `Int.fract` by a value with known fractional
part: `fract ((offset + t) / 360) = fract (fract (offset / 360) + t / 360)`. -/
lemma fract_shift (offset t : ℚ) :
    Int.fract ((offset + t) / 360) =
      Int.fract (Int.fract (offset / 360) + t / 360) := by
  rw [add_div]
  conv_lhs => rw [← Int.floor_add_fract (offset / 360)]
  rw [add_assoc, Int.fract_int_add]

/- ====================== C9 ====================== -/

/-- C9: for a range with `min ≤ max` and a draw `u ∈ [0,1)`,
`randomInRange` stays within `[min, max]`; for a degenerate range
(`min = max`) it returns that value exactly, for every draw. -/
theorem randomInRange_spec (r : Range) (u : ℚ) :
    (r.min ≤ r.max → 0 ≤ u → u < 1 →
      r.min ≤ randomInRange r u ∧ randomInRange r u ≤ r.max) ∧
    (r.min = r.max → randomInRange r u = r.min) := by
  constructor
  · intro hr hu0 hu1
    unfold randomInRange
    constructor
    · have h1 : 0 ≤ u * (r.max - r.min) := mul_nonneg hu0 (by linarith)
      linarith
    · have h2 : u * (r.max - r.min) ≤ 1 * (r.max - r.min) :=
        mul_le_mul_of_nonneg_right hu1.le (by linarith)
      linarith
  · intro hr
    unfold randomInRange
    rw [hr]
    ring

/-- Witness for C9 at `r = ⟨10, 20⟩`, `u = 1/4`. -/
theorem randomInRange_spec_witness :
    ((⟨10, 20⟩ : Range).min ≤ (⟨10, 20⟩ : Range).max ∧ (0:ℚ) ≤ 1/4 ∧ (1/4:ℚ) < 1) ∧
    (⟨10, 20⟩ : Range).min ≤ randomInRange ⟨10, 20⟩ (1/4) ∧
    randomInRange ⟨10, 20⟩ (1/4) ≤ (⟨10, 20⟩ : Range).max :=
  ⟨⟨by norm_num, by norm_num, by norm_num⟩,
    (randomInRange_spec ⟨10, 20⟩ (1/4)).1 (by norm_num) (by norm_num) (by norm_num)⟩

/- ====================== C10 ====================== -/

/-- C10: for `spread ∈ [0,360]` and a draw `u ∈ [0,1)`, `randomAngle` lands
in `[0,360)` and within the wrapped interval from `normalizeAngle offset` to
`normalizeAngle (offset + spread)`; a zero spread yields exactly
`normalizeAngle offset` for every draw. -/
theorem randomAngle_spec (spread offset u : ℚ) :
    (0 ≤ spread → spread ≤ 360 → 0 ≤ u → u < 1 →
      0 ≤ randomAngle spread offset u ∧ randomAngle spread offset u < 360 ∧
      angleWithin (normalizeAngle offset) (normalizeAngle (offset + spread))
        (randomAngle spread offset u)) ∧
    randomAngle 0 offset u = normalizeAngle offset := by
  constructor
  · intro hs0 hs1 hu0 hu1
    refine ⟨(normalizeAngle_mem _).1, (normalizeAngle_mem _).2, ?_⟩
    by_cases hsp : spread = 0
    · subst hsp
      have h1 : offset + u * 0 = offset := by ring
      have h2 : offset + (0:ℚ) = offset := by ring
      unfold randomAngle angleWithin
      rw [h1, h2, if_neg (lt_irrefl _)]
      exact Or.inl le_rfl
    · have hspos : 0 < spread := lt_of_le_of_ne hs0 (Ne.symm hsp)
      set A := Int.fract (offset / 360) with hA
      have hA0 : 0 ≤ A := Int.fract_nonneg _
      have hA1 : A < 1 := Int.fract_lt_one _
      have hθ : randomAngle spread offset u =
          360 * Int.fract (A + u * spread / 360) := by
        unfold randomAngle
        rw [normalizeAngle_eq_fract, fract_shift]
      have ha : normalizeAngle offset = 360 * A := by
        rw [normalizeAngle_eq_fract, hA]
      have hb : normalizeAngle (offset + spread) =
          360 * Int.fract (A + spread / 360) := by
        rw [normalizeAngle_eq_fract, fract_shift]
      have hd0 : 0 ≤ u * spread / 360 :=
        div_nonneg (mul_nonneg hu0 hspos.le) (by norm_num)
      have hds : u * spread / 360 < spread / 360 := by
        have h := mul_lt_of_lt_one_left hspos hu1
        exact div_lt_div_of_pos_right h (by norm_num)
      have hs1' : spread / 360 ≤ 1 := (div_le_one (by norm_num)).mpr hs1
      have hs0' : 0 < spread / 360 := div_pos hspos (by norm_num)
      rw [hθ, ha, hb]
      unfold angleWithin
      by_cases hcase : A + spread / 360 < 1
      · have hbv : Int.fract (A + spread / 360) = A + spread / 360 :=
          Int.fract_eq_self.mpr ⟨by linarith, hcase⟩
        have hθv : Int.fract (A + u * spread / 360) = A + u * spread / 360 :=
          Int.fract_eq_self.mpr ⟨by linarith, by linarith⟩
        rw [hbv, hθv, if_pos (by linarith)]
        constructor <;> linarith
      · push_neg at hcase
        have hbv : Int.fract (A + spread / 360) = A + spread / 360 - 1 := by
          have h2 : A + spread / 360 < 2 := by linarith
          have hrw : A + spread / 360 = (A + spread / 360 - 1) + (1:ℤ) := by
            push_cast; ring
          rw [hrw, Int.fract_add_int,
            Int.fract_eq_self.mpr ⟨by linarith, by linarith⟩]
          push_cast
          ring
        rw [hbv, if_neg (by linarith)]
        by_cases hdu : A + u * spread / 360 < 1
        · have hθv : Int.fract (A + u * spread / 360) = A + u * spread / 360 :=
            Int.fract_eq_self.mpr ⟨by linarith, hdu⟩
          rw [hθv]
          exact Or.inl (by linarith)
        · push_neg at hdu
          have hθv : Int.fract (A + u * spread / 360) =
              A + u * spread / 360 - 1 := by
            have h2 : A + u * spread / 360 < 2 := by linarith
            have hrw : A + u * spread / 360 = (A + u * spread / 360 - 1) + (1:ℤ) := by
              push_cast; ring
            rw [hrw, Int.fract_add_int,
              Int.fract_eq_self.mpr ⟨by linarith, by linarith⟩]
            push_cast
            ring
          rw [hθv]
          exact Or.inr (by linarith)
  · unfold randomAngle
    rw [mul_zero, add_zero]

/-- Witness for C10 at `spread = 90`, `offset = -45`, `u = 1/2`. -/
theorem randomAngle_spec_witness :
    ((0:ℚ) ≤ 90 ∧ (90:ℚ) ≤ 360 ∧ (0:ℚ) ≤ 1/2 ∧ (1/2:ℚ) < 1) ∧
    (0 ≤ randomAngle 90 (-45) (1/2) ∧ randomAngle 90 (-45) (1/2) < 360 ∧
      angleWithin (normalizeAngle (-45)) (normalizeAngle (-45 + 90))
        (randomAngle 90 (-45) (1/2))) :=
  ⟨⟨by norm_num, by norm_num, by norm_num, by norm_num⟩,
    (randomAngle_spec 90 (-45) (1/2)).1
      (by norm_num) (by norm_num) (by norm_num) (by norm_num)⟩

/- ====================== C5 ====================== -/

/-- C5: the resolver reproduces the documented defaults exactly, and each of
the five presets resolves to its contractual values. -/
theorem resolveParticleConfig_presets_exact :
    resolveParticleConfig none none =
      ({ shape := some (some .heart), speed := some (some 500)
         distance := some (some (.range ⟨60, 100⟩)), spread := some (some 360)
         spreadOffset := some (some 0), size := some (some (.range ⟨1.0, 1.5⟩))
         colors := some (some ["#EF4444", "#B9FF14", "#3B82F6"])
         count := some (some 8)
         easing := some (some "cubic-bezier(0.22, 1, 0.36, 1)")
         fadeOut := some (some true) } : ParticleConfig) ∧
    ((resolveParticleConfig (some .burst) none).count = some (some 12) ∧
      (resolveParticleConfig (some .burst) none).spread = some (some 360) ∧
      (resolveParticleConfig (some .burst) none).speed = some (some 400) ∧
      (resolveParticleConfig (some .burst) none).shape = some (some .heart)) ∧
    ((resolveParticleConfig (some .fountain) none).count = some (some 10) ∧
      (resolveParticleConfig (some .fountain) none).spread = some (some 120) ∧
      (resolveParticleConfig (some .fountain) none).spreadOffset = some (some (-90)) ∧
      (resolveParticleConfig (some .fountain) none).speed = some (some 600) ∧
      (resolveParticleConfig (some .fountain) none).shape = some (some .circle)) ∧
    ((resolveParticleConfig (some .confetti) none).count = some (some 15) ∧
      (resolveParticleConfig (some .confetti) none).spread = some (some 360) ∧
      (resolveParticleConfig (some .confetti) none).speed = some (some 800) ∧
      (resolveParticleConfig (some .confetti) none).shape = some (some .square) ∧
      (((resolveParticleConfig (some .confetti) none).colors.getD none).getD []).length = 6) ∧
    ((resolveParticleConfig (some .gentle) none).count = some (some 6) ∧
      (resolveParticleConfig (some .gentle) none).spread = some (some 180) ∧
      (resolveParticleConfig (some .gentle) none).spreadOffset = some (some (-90)) ∧
      (resolveParticleConfig (some .gentle) none).speed = some (some 700) ∧
      (resolveParticleConfig (some .gentle) none).shape = some (some .heart)) ∧
    ((resolveParticleConfig (some .fireworks) none).count = some (some 16) ∧
      (resolveParticleConfig (some .fireworks) none).spread = some (some 360) ∧
      (resolveParticleConfig (some .fireworks) none).speed = some (some 500) ∧
      (resolveParticleConfig (some .fireworks) none).shape = some (some .sparkle)) := by
  refine ⟨rfl, ⟨rfl, rfl, rfl, rfl⟩, ⟨rfl, rfl, rfl, rfl, rfl⟩,
    ⟨rfl, rfl, rfl, rfl, rfl⟩, ⟨rfl, rfl, rfl, rfl, rfl⟩, ⟨rfl, rfl, rfl, rfl⟩⟩

/- ====================== C2 ====================== -/

/-- Applying the custom-config layer is the same as merging it over the
preset-or-default result. -/
lemma resolveParticleConfig_some (p : Option ParticlePreset) (c : ParticleConfig) :
    resolveParticleConfig p (some c) =
      mergeParticleConfig (resolveParticleConfig p none) (some c) := by
  cases p <;> rfl

/-- C2 counterexample: the claim says an override field explicitly set to
`undefined` is treated as omitted.  In the code, `{...base, ...override}`
copies the present-but-`undefined` key: `resolve('burst', {count: undefined})`
has `count` `undefined`, not the prior layer's `12`. -/
theorem mergeParticleConfig_undefined_counterexample :
    (resolveParticleConfig (some .burst) none).count = some (some 12) ∧
    (resolveParticleConfig (some .burst) (some undefCountOverride)).count = some none ∧
    (some none : Option (Option ℕ)) ≠ some (some 12) := by
  refine ⟨rfl, rfl, ?_⟩
  decide

/-- C2 amended: the resolver merges defaults < preset < override
field-by-field; a field whose key is absent from the override keeps the
prior layer's value, while a key present on the override replaces the prior
value outright — including replacing it with `undefined` when the override
field is explicitly `undefined`, and including full (non-recursive)
replacement of range fields; `resolve('burst', {count: 5})` has count `5`
and the burst preset's shape. -/
theorem mergeParticleConfig_spec (p : Option ParticlePreset) (c : ParticleConfig) :
    (c.count = none →
      (resolveParticleConfig p (some c)).count = (resolveParticleConfig p none).count) ∧
    (∀ v, c.count = some v → (resolveParticleConfig p (some c)).count = some v) ∧
    (c.shape = none →
      (resolveParticleConfig p (some c)).shape = (resolveParticleConfig p none).shape) ∧
    (∀ d, c.distance = some d → (resolveParticleConfig p (some c)).distance = some d) ∧
    (∀ d, c.size = some d → (resolveParticleConfig p (some c)).size = some d) ∧
    (c = {} → resolveParticleConfig p (some c) = resolveParticleConfig p none) ∧
    ((resolveParticleConfig (some .burst) (some countFiveOverride)).count =
      some (some 5) ∧
      (resolveParticleConfig (some .burst) (some countFiveOverride)).shape =
        some (some .heart)) := by
  rw [resolveParticleConfig_some]
  refine ⟨?_, ?_, ?_, ?_, ?_, ?_, rfl, rfl⟩
  · intro h
    simp [mergeParticleConfig, overrideField, h]
  · intro v h
    simp [mergeParticleConfig, overrideField, h]
  · intro h
    simp [mergeParticleConfig, overrideField, h]
  · intro d h
    simp [mergeParticleConfig, overrideField, h]
  · intro d h
    simp [mergeParticleConfig, overrideField, h]
  · intro h
    subst h
    simp [mergeParticleConfig, overrideField]

/- ====================== C4 ====================== -/

/-- C4 counterexample: `fillPercentage` is not clamped.  A controlled button
with external `clicks = 2` and `maxClicks = 1` is maxed yet reports a fill
of `200`, outside `[0, 100]` and different from `100`. -/
theorem fillPercentage_counterexample :
    isMaxed overMaxOptions freshState = true ∧
    fillPercentage overMaxOptions freshState = 200 ∧
    ¬ fillPercentage overMaxOptions freshState ≤ 100 := by
  have h : fillPercentage overMaxOptions freshState = 200 := by
    norm_num [fillPercentage, clicks, maxClicks, overMaxOptions, freshState]
  refine ⟨by decide, h, ?_⟩
  rw [h]
  norm_num

/-- C4 amended: `fillPercentage` equals `clicks / maxClicks * 100` with no
clamping.  With a positive `maxClicks` it is nonnegative, is at most `100`
iff the click count is at most `maxClicks`, equals `100` exactly when the
click count equals `maxClicks`, and is at least `100` whenever the button is
maxed — so an externally controlled count above `maxClicks` drives it above
`100`. -/
theorem fillPercentage_spec (o : UseLikeButtonOptions) (s : HookState)
    (h : 0 < maxClicks o) :
    fillPercentage o s = (clicks o s : ℚ) / (maxClicks o : ℚ) * 100 ∧
    0 ≤ fillPercentage o s ∧
    (clicks o s ≤ maxClicks o → fillPercentage o s ≤ 100) ∧
    (fillPercentage o s = 100 ↔ clicks o s = maxClicks o) ∧
    (maxClicks o ≤ clicks o s → 100 ≤ fillPercentage o s) := by
  have hm : (0:ℚ) < (maxClicks o : ℚ) := by exact_mod_cast h
  have hc : (0:ℚ) ≤ (clicks o s : ℚ) := Nat.cast_nonneg _
  unfold fillPercentage
  refine ⟨rfl, ?_, ?_, ?_, ?_⟩
  · exact mul_nonneg (div_nonneg hc hm.le) (by norm_num)
  · intro hle
    have h1 : (clicks o s : ℚ) / (maxClicks o : ℚ) ≤ 1 :=
      (div_le_one hm).mpr (by exact_mod_cast hle)
    nlinarith
  · constructor
    · intro heq
      have h1 : (clicks o s : ℚ) / (maxClicks o : ℚ) = 1 := by
        have h100 : (100:ℚ) ≠ 0 := by norm_num
        field_simp at heq
        rw [div_eq_one_iff_eq hm.ne']
        linarith
      have h2 : (clicks o s : ℚ) = (maxClicks o : ℚ) :=
        (div_eq_one_iff_eq hm.ne').mp h1
      exact_mod_cast h2
    · intro heq
      rw [heq, div_self hm.ne']
      norm_num
  · intro hge
    have h1 : (1:ℚ) ≤ (clicks o s : ℚ) / (maxClicks o : ℚ) :=
      (one_le_div hm).mpr (by exact_mod_cast hge)
    nlinarith

/-- Witness for C4 (amended) at the controlled over-max scenario. -/
theorem fillPercentage_spec_witness :
    0 < maxClicks overMaxOptions ∧
    (fillPercentage overMaxOptions freshState =
        (clicks overMaxOptions freshState : ℚ) / (maxClicks overMaxOptions : ℚ) * 100 ∧
      0 ≤ fillPercentage overMaxOptions freshState ∧
      (clicks overMaxOptions freshState ≤ maxClicks overMaxOptions →
        fillPercentage overMaxOptions freshState ≤ 100) ∧
      (fillPercentage overMaxOptions freshState = 100 ↔
        clicks overMaxOptions freshState = maxClicks overMaxOptions) ∧
      (maxClicks overMaxOptions ≤ clicks overMaxOptions freshState →
        100 ≤ fillPercentage overMaxOptions freshState)) :=
  ⟨by decide, fillPercentage_spec overMaxOptions freshState (by decide)⟩

/- ====================== Hook structural lemmas ====================== -/

/-- `spawnParticles` never touches the stored click count. -/
lemma spawnParticles_internalClicks (o : UseLikeButtonOptions) (t : ℕ)
    (draws : ℕ → Draws) (s : HookState) :
    ((spawnParticles o t draws s).1).internalClicks = s.internalClicks := by
  unfold spawnParticles
  split
  · rfl
  · split <;> rfl

/-- Each burst synthesizes one particle per index below `count`. -/
lemma newParticles_length (cfg : ParticlePresetConfig) (t : ℕ)
    (draws : ℕ → Draws) : (newParticles cfg t draws).length = cfg.count := by
  simp [newParticles]

/-- Every instance of a burst carries the burst's timestamp in its id. -/
lemma newParticles_id_t (cfg : ParticlePresetConfig) (t : ℕ)
    (draws : ℕ → Draws) :
    ∀ p ∈ newParticles cfg t draws, (ParticleData.id p).t = t := by
  intro p hp
  simp only [newParticles, List.mem_map, List.mem_range] at hp
  obtain ⟨i, _, rfl⟩ := hp
  rfl

/- ====================== C1 ====================== -/

/-- C1 counterexample: with the external disabled flag explicitly `false`
and the internal count already at `maxClicks` (maxed, hence disabled per the
claim's `flag OR maxed` rule), `handleClick` is not a no-op: it invokes the
click callback with `2` and stores `2`. -/
theorem handleClick_disabled_counterexample :
    maxClicks explicitEnabledOptions ≤ clicks explicitEnabledOptions oneClickState ∧
    (handleClick explicitEnabledOptions 0 d0 oneClickState).2.2 = some 2 ∧
    (handleClick explicitEnabledOptions 0 d0 oneClickState).1.internalClicks = 2 := by
  refine ⟨by decide, by decide, by decide⟩

/-- C1 amended: `disabled` is the external flag when one is supplied
(nullish coalescing), and `clicks ≥ maxClicks` only otherwise.  `handleClick`
is a no-op (state untouched, no callback, no burst) exactly when `disabled`
holds; otherwise it invokes the click callback with `clicks + 1` and, in
uncontrolled mode, stores `clicks + 1`. -/
theorem handleClick_spec (o : UseLikeButtonOptions) (t : ℕ) (draws : ℕ → Draws)
    (s : HookState) :
    (disabled o s = true ↔
      (o.disabled = some true ∨ (o.disabled = none ∧ maxClicks o ≤ clicks o s))) ∧
    (disabled o s = true → handleClick o t draws s = (s, none, none)) ∧
    (disabled o s = false →
      (handleClick o t draws s).2.2 = some (clicks o s + 1) ∧
      (o.clicks = none →
        (handleClick o t draws s).1.internalClicks = clicks o s + 1)) := by
  refine ⟨?_, ?_, ?_⟩
  · cases ho : o.disabled with
    | none => simp [disabled, ho, isMaxed]
    | some b => cases b <;> simp [disabled, ho]
  · intro h
    simp [handleClick, h]
  · intro h
    constructor
    · simp [handleClick, h]
    · intro hc
      simp only [handleClick, h, Bool.false_eq_true, if_false]
      rw [spawnParticles_internalClicks]
      simp [hc]

/-- Witness for C1 (amended) on a fresh default button. -/
theorem handleClick_spec_witness :
    disabled ({} : UseLikeButtonOptions) freshState = false ∧
    ({} : UseLikeButtonOptions).clicks = none ∧
    (handleClick {} 0 d0 freshState).2.2 = some (clicks {} freshState + 1) ∧
    (handleClick {} 0 d0 freshState).1.internalClicks = clicks {} freshState + 1 :=
  ⟨by decide, rfl,
    ((handleClick_spec {} 0 d0 freshState).2.2 (by decide)).1,
    ((handleClick_spec {} 0 d0 freshState).2.2 (by decide)).2 rfl⟩

/- ====================== C6 ====================== -/

/-- C6: a qualifying click with resolved count `k` appends exactly `k` new
instances to the active set, leaving the previously active instances in
place; `count = 0` appends none. -/
theorem handleClick_spawn_count (o : UseLikeButtonOptions) (t : ℕ)
    (draws : ℕ → Draws) (s : HookState) (cfg : ParticlePresetConfig) :
    disabled o s = false → showParticles o = true →
    stripConfig (resolveParticleConfig o.particlePreset o.particleConfig) = some cfg →
    (handleClick o t draws s).1.particles = s.particles ++ newParticles cfg t draws ∧
    (newParticles cfg t draws).length = cfg.count ∧
    (cfg.count = 0 → (handleClick o t draws s).1.particles = s.particles) := by
  intro hd hsp hcfg
  have hparts : (handleClick o t draws s).1.particles =
      s.particles ++ newParticles cfg t draws := by
    simp only [handleClick, hd, Bool.false_eq_true, if_false]
    unfold spawnParticles
    rw [if_neg (by simp [hsp]), hcfg]
    by_cases hc : o.clicks.isNone <;> simp [hc]
  refine ⟨hparts, newParticles_length cfg t draws, ?_⟩
  intro h0
  rw [hparts]
  have : newParticles cfg t draws = [] :=
    List.eq_nil_of_length_eq_zero (by rw [newParticles_length, h0])
  rw [this, List.append_nil]

/-- Witness for C6: the two-particle scenario config spawns exactly one
instance per click. -/
theorem handleClick_spawn_count_witness :
    (disabled rapidOptions freshState = false ∧
      showParticles rapidOptions = true ∧
      stripConfig (resolveParticleConfig rapidOptions.particlePreset
          rapidOptions.particleConfig) =
        some ⟨.heart, ["#EF4444"], 1, .num 1, 500, .num 60, 360, 0, "linear", true⟩) ∧
    (handleClick rapidOptions 1000 d0 freshState).1.particles =
      freshState.particles ++
        newParticles ⟨.heart, ["#EF4444"], 1, .num 1, 500, .num 60, 360, 0, "linear", true⟩
          1000 d0 ∧
    (newParticles ⟨.heart, ["#EF4444"], 1, .num 1, 500, .num 60, 360, 0, "linear", true⟩
        1000 d0).length =
      (⟨.heart, ["#EF4444"], 1, .num 1, 500, .num 60, 360, 0, "linear", true⟩ :
        ParticlePresetConfig).count :=
  ⟨⟨by decide, rfl, rfl⟩,
    (handleClick_spawn_count rapidOptions 1000 d0 freshState _ (by decide) rfl rfl).1,
    (handleClick_spawn_count rapidOptions 1000 d0 freshState _ (by decide) rfl rfl).2.1⟩

/- ====================== C7 ====================== -/

/-- C7: `handleRightClick` and `handleKeyDown` never change the hook state;
when not disabled the right-click callback receives the current
(non-incremented) count; `handleKeyDown` acts only on Shift+Enter, and when
it acts it produces exactly the `handleRightClick` outcome. -/
theorem rightClick_keyDown_spec (o : UseLikeButtonOptions) (s : HookState)
    (e : KeyboardEvent) :
    (handleRightClick o s).state = s ∧
    (handleKeyDown o s e).state = s ∧
    (disabled o s = false →
      (handleRightClick o s).onRightClickCall = some (clicks o s)) ∧
    (¬ (e.shiftKey = true ∧ e.key = "Enter") →
      handleKeyDown o s e = ⟨s, none, false⟩) ∧
    (e.shiftKey = true ∧ e.key = "Enter" →
      handleKeyDown o s e = handleRightClick o s) := by
  refine ⟨rfl, ?_, ?_, ?_, ?_⟩
  · unfold handleKeyDown
    split <;> rfl
  · intro h
    simp [handleRightClick, h]
  · intro h
    simp [handleKeyDown, h]
  · intro h
    simp [handleKeyDown, handleRightClick, h]

/-- Witness for C7 on a fresh default button, with the Shift+Enter event and
with a Shift+A event. -/
theorem rightClick_keyDown_spec_witness :
    (handleRightClick ({} : UseLikeButtonOptions) freshState).state = freshState ∧
    disabled ({} : UseLikeButtonOptions) freshState = false ∧
    (handleRightClick ({} : UseLikeButtonOptions) freshState).onRightClickCall =
      some (clicks {} freshState) ∧
    handleKeyDown ({} : UseLikeButtonOptions) freshState ⟨true, "Enter"⟩ =
      handleRightClick ({} : UseLikeButtonOptions) freshState ∧
    handleKeyDown ({} : UseLikeButtonOptions) freshState ⟨true, "a"⟩ =
      ⟨freshState, none, false⟩ :=
  ⟨(rightClick_keyDown_spec {} freshState ⟨true, "Enter"⟩).1,
    by decide,
    (rightClick_keyDown_spec {} freshState ⟨true, "Enter"⟩).2.2.1 (by decide),
    (rightClick_keyDown_spec {} freshState ⟨true, "Enter"⟩).2.2.2.2 (by simp),
    (rightClick_keyDown_spec {} freshState ⟨true, "a"⟩).2.2.2.1 (by simp)⟩

/- ====================== C8 ====================== -/

/-- C8: while `disabled` holds, click, right-click and keydown all leave the
state unchanged and invoke no callback (the handlers are total functions —
nothing is thrown). -/
theorem disabled_silent_spec (o : UseLikeButtonOptions) (t : ℕ)
    (draws : ℕ → Draws) (s : HookState) (e : KeyboardEvent)
    (h : disabled o s = true) :
    handleClick o t draws s = (s, none, none) ∧
    handleRightClick o s = ⟨s, none, true⟩ ∧
    (e.shiftKey = true ∧ e.key = "Enter" → handleKeyDown o s e = ⟨s, none, true⟩) ∧
    (¬ (e.shiftKey = true ∧ e.key = "Enter") →
      handleKeyDown o s e = ⟨s, none, false⟩) := by
  refine ⟨?_, ?_, ?_, ?_⟩
  · simp [handleClick, h]
  · simp [handleRightClick, h]
  · intro he
    simp [handleKeyDown, he, h]
  · intro he
    simp [handleKeyDown, he]

/-- Witness for C8 on a maxed default button (`maxClicks = 1`, one stored
click). -/
theorem disabled_silent_spec_witness :
    disabled ({} : UseLikeButtonOptions) oneClickState = true ∧
    handleClick ({} : UseLikeButtonOptions) 0 d0 oneClickState =
      (oneClickState, none, none) ∧
    handleRightClick ({} : UseLikeButtonOptions) oneClickState =
      ⟨oneClickState, none, true⟩ ∧
    handleKeyDown ({} : UseLikeButtonOptions) oneClickState ⟨true, "Enter"⟩ =
      ⟨oneClickState, none, true⟩ ∧
    handleKeyDown ({} : UseLikeButtonOptions) oneClickState ⟨false, "Enter"⟩ =
      ⟨oneClickState, none, false⟩ :=
  ⟨by decide,
    (disabled_silent_spec {} 0 d0 oneClickState ⟨true, "Enter"⟩ (by decide)).1,
    (disabled_silent_spec {} 0 d0 oneClickState ⟨true, "Enter"⟩ (by decide)).2.1,
    (disabled_silent_spec {} 0 d0 oneClickState ⟨true, "Enter"⟩ (by decide)).2.2.1
      (by simp),
    (disabled_silent_spec {} 0 d0 oneClickState ⟨false, "Enter"⟩ (by decide)).2.2.2
      (by simp)⟩

/- ====================== C3 ====================== -/

/-- C3 counterexample: two qualifying clicks in the same `Date.now()`
millisecond produce colliding instance ids across the two bursts, and the
first burst's deferred removal wipes the second burst's still-animating
instance as well (the active set becomes empty instead of keeping burst 2). -/
theorem rapid_clicks_counterexample :
    ¬ (rapidState2.particles.map ParticleData.id).Nodup ∧
    rapidState2.particles.length = 2 ∧
    runCleanup ((rapidCleanup1.getD ⟨0, []⟩).ids) rapidState2.particles = [] := by
  refine ⟨by decide, by decide, by decide⟩

/-- C3 amended: within one burst ids are unique, and the deferred removal is
scheduled after `speed + 100` ms and removes exactly the instances whose ids
belong to that burst's id set — which are exactly that burst's instances,
with other bursts untouched, provided the two bursts' `Date.now()`
timestamps differ. -/
theorem particle_cleanup_spec (o : UseLikeButtonOptions) (t tB : ℕ)
    (draws dB : ℕ → Draws) (s : HookState) (cfg cfgB : ParticlePresetConfig) :
    (showParticles o = true →
      stripConfig (resolveParticleConfig o.particlePreset o.particleConfig) = some cfg →
      (spawnParticles o t draws s).2 =
        some ⟨cfg.speed + 100, (newParticles cfg t draws).map ParticleData.id⟩) ∧
    ((newParticles cfg t draws).map ParticleData.id).Nodup ∧
    (t ≠ tB →
      runCleanup ((newParticles cfg t draws).map ParticleData.id)
        (newParticles cfg t draws ++ newParticles cfgB tB dB) =
      newParticles cfgB tB dB) := by
  refine ⟨?_, ?_, ?_⟩
  · intro hsp hcfg
    unfold spawnParticles
    rw [if_neg (by simp [hsp]), hcfg]
    rfl
  · simp only [newParticles, List.map_map]
    apply List.Nodup.map ?_ (List.nodup_range _)
    intro a b hab
    simp only [Function.comp_apply] at hab
    have hid : (⟨t, a⟩ : ParticleId) = ⟨t, b⟩ := hab
    exact congrArg ParticleId.i hid
  · intro hne
    unfold runCleanup
    rw [List.filter_append]
    have h1 : List.filter
        (fun p => decide (p.id ∉ (newParticles cfg t draws).map ParticleData.id))
        (newParticles cfg t draws) = [] := by
      rw [List.filter_eq_nil_iff]
      intro p hp
      simp only [decide_eq_true_eq, Decidable.not_not]
      exact List.mem_map_of_mem ParticleData.id hp
    have h2 : List.filter
        (fun p => decide (p.id ∉ (newParticles cfg t draws).map ParticleData.id))
        (newParticles cfgB tB dB) = newParticles cfgB tB dB := by
      rw [List.filter_eq_self]
      intro p hp
      simp only [decide_eq_true_eq]
      intro hmem
      obtain ⟨q, hq, hqid⟩ := List.mem_map.mp hmem
      have ht : (ParticleData.id q).t = t := newParticles_id_t cfg t draws q hq
      have htB : (ParticleData.id p).t = tB := newParticles_id_t cfgB tB dB p hp
      exact hne (by rw [← ht, hqid, htB])
    rw [h1, h2, List.nil_append]

/-- Witness for C3 (amended): bursts at timestamps `1000` and `1001`. -/
theorem particle_cleanup_spec_witness :
    (showParticles rapidOptions = true ∧
      stripConfig (resolveParticleConfig rapidOptions.particlePreset
          rapidOptions.particleConfig) =
        some ⟨.heart, ["#EF4444"], 1, .num 1, 500, .num 60, 360, 0, "linear", true⟩ ∧
      (1000 : ℕ) ≠ 1001) ∧
    ((newParticles ⟨.heart, ["#EF4444"], 1, .num 1, 500, .num 60, 360, 0, "linear", true⟩
        1000 d0).map ParticleData.id).Nodup ∧
    runCleanup
        ((newParticles ⟨.heart, ["#EF4444"], 1, .num 1, 500, .num 60, 360, 0, "linear", true⟩
          1000 d0).map ParticleData.id)
        (newParticles ⟨.heart, ["#EF4444"], 1, .num 1, 500, .num 60, 360, 0, "linear", true⟩
            1000 d0 ++
          newParticles ⟨.heart, ["#EF4444"], 1, .num 1, 500, .num 60, 360, 0, "linear", true⟩
            1001 d0) =
      newParticles ⟨.heart, ["#EF4444"], 1, .num 1, 500, .num 60, 360, 0, "linear", true⟩
        1001 d0 :=
  ⟨⟨rfl, rfl, by decide⟩,
    (particle_cleanup_spec rapidOptions 1000 1001 d0 d0 freshState
      ⟨.heart, ["#EF4444"], 1, .num 1, 500, .num 60, 360, 0, "linear", true⟩
      ⟨.heart, ["#EF4444"], 1, .num 1, 500, .num 60, 360, 0, "linear", true⟩).2.1,
    (particle_cleanup_spec rapidOptions 1000 1001 d0 d0 freshState
      ⟨.heart, ["#EF4444"], 1, .num 1, 500, .num 60, 360, 0, "linear", true⟩
      ⟨.heart, ["#EF4444"], 1, .num 1, 500, .num 60, 360, 0, "linear", true⟩).2.2
      (by decide)⟩

/-- Witness for C2 (amended): a supplied `count` wins, and a field whose key
is absent from the override keeps the prior layer's value. -/
theorem mergeParticleConfig_spec_witness :
    countFiveOverride.count = some (some 5) ∧
    (resolveParticleConfig (some .burst) (some countFiveOverride)).count =
      some (some 5) ∧
    undefCountOverride.shape = none ∧
    (resolveParticleConfig (some .burst) (some undefCountOverride)).shape =
      (resolveParticleConfig (some .burst) none).shape :=
  ⟨rfl,
    (mergeParticleConfig_spec (some .burst) countFiveOverride).2.1 (some 5) rfl,
    rfl,
    (mergeParticleConfig_spec (some .burst) undefCountOverride).2.2.1 rfl⟩
